import Mathlib

/-!
Shallow embedding of the newsservice repository (Go) and proofs about it.

The embedding follows the source files:
  * `internal/pagination/pagination.go` — pagination metadata arithmetic;
  * `internal/parser/xmlparser.go`      — feed parsing with per-item date tolerance;
  * `storage/postgres.go`               — query construction and transactional save.

Go `int` is modelled as `Int` (no overflow is relevant at the sizes involved;
Go integer division truncates toward zero, modelled with `Int.tdiv`/`Int.tmod`).
-/

namespace NewsService

/-- Go `time.Time`, modelled as a calendar timestamp.  The zero value of
`time.Time` is January 1, year 1, 00:00:00, which the field defaults encode;
`IsZero` compares against it, as in the Go standard library. -/
structure GoTime where
  year : Nat := 1
  month : Nat := 1
  day : Nat := 1
  hour : Nat := 0
  minute : Nat := 0
  second : Nat := 0
deriving DecidableEq, Repr

/-- Go `t.IsZero()`: true exactly on the zero `time.Time` value. -/
def GoTime.IsZero (t : GoTime) : Bool :=
  decide (t = {})

/-- Left-pads the decimal rendering of `n` with zeroes to width `w`. -/
def natPad (n : Nat) (w : Nat) : String :=
  let s := toString n
  String.mk (List.replicate (w - s.length) '0') ++ s

/-- Go `t.Format("2006-01-02")`: the date portion, zero-padded. -/
def GoTime.formatDateOnly (t : GoTime) : String :=
  natPad t.year 4 ++ "-" ++ natPad t.month 2 ++ "-" ++ natPad t.day 2

/-- `models.NewsFullDetailed` from `internal/models/models.go`. -/
structure NewsFullDetailed where
  NewsID : Int := 0
  Title : String := ""
  Description : String := ""
  Content : String := ""
  Author : String := ""
  PublishedAt : GoTime := {}
  Source : String := ""
  Link : String := ""
  Tag : List String := []
deriving DecidableEq, Repr

/-! ## Pagination (`internal/pagination/pagination.go`) -/

/-- The constant `NEWS_PER_PAGE = 20`. -/
def NEWS_PER_PAGE : Int := 20

/-- The struct `pagination.Pagination`. -/
structure Pagination where
  TotalResults : Int
  TotalPages : Int
  CurrentPage : Int
  NewsPerPage : Int
  Results : List NewsFullDetailed
  HasNext : Bool
  HasPrev : Bool
  NextPage : Int
  PrevPage : Int
deriving DecidableEq, Repr

/-- `calculateTotalPages` from pagination.go: `0` for non-positive input,
otherwise truncated division by `NEWS_PER_PAGE` plus one when there is a
remainder.  Go `/` and `%` on `int` truncate toward zero, hence
`Int.tdiv`/`Int.tmod`. -/
def calculateTotalPages (totalResults : Int) : Int :=
  if totalResults ≤ 0 then 0
  else
    let totalPages := totalResults.tdiv NEWS_PER_PAGE
    if totalResults.tmod NEWS_PER_PAGE ≠ 0 then totalPages + 1 else totalPages

/-- `pagination.New` from pagination.go. -/
def Pagination.New (totalResults0 currentPage0 : Int) : Pagination :=
  let currentPage1 := if currentPage0 < 1 then 1 else currentPage0
  let totalResults := if totalResults0 < 0 then 0 else totalResults0
  let totalPages := calculateTotalPages totalResults
  let currentPage := if currentPage1 > totalPages ∧ totalPages > 0 then totalPages else currentPage1
  let hasNext := decide (currentPage < totalPages)
  let hasPrev := decide (currentPage > 1)
  let nextPage := if hasNext then currentPage + 1 else 0
  let prevPage := if hasPrev then currentPage - 1 else 0
  { TotalResults := totalResults
    TotalPages := totalPages
    CurrentPage := currentPage
    NewsPerPage := NEWS_PER_PAGE
    Results := []
    HasNext := hasNext
    HasPrev := hasPrev
    NextPage := nextPage
    PrevPage := prevPage }

/-- `updateNavigation` from pagination.go: re-derives the four navigation
fields from `CurrentPage` and `TotalPages`. -/
def Pagination.updateNavigation (p : Pagination) : Pagination :=
  let hasNext := decide (p.CurrentPage < p.TotalPages)
  let hasPrev := decide (p.CurrentPage > 1)
  { p with
    HasNext := hasNext
    HasPrev := hasPrev
    NextPage := if hasNext then p.CurrentPage + 1 else 0
    PrevPage := if hasPrev then p.CurrentPage - 1 else 0 }

/-- `SetResults` from pagination.go: stores the results, and applies the
short-page correction when fewer than a full page came back while sitting on
the previously computed last page. -/
def Pagination.SetResults (p0 : Pagination) (results : List NewsFullDetailed) : Pagination :=
  let p := { p0 with Results := results }
  if (results.length : Int) < p.NewsPerPage ∧ p.CurrentPage = p.TotalPages then
    let p1 := { p with TotalResults := (p.TotalPages - 1) * p.NewsPerPage + results.length }
    let p2 := { p1 with TotalPages := calculateTotalPages p1.TotalResults }
    p2.updateNavigation
  else p

/-- `Validate` from pagination.go; `none` models a nil error. -/
def Pagination.Validate (p : Pagination) : Option String :=
  if p.CurrentPage < 1 then some "current page cannot be less than 1"
  else if p.TotalResults < 0 then some "total results cannot be negative"
  else if p.NewsPerPage < 1 then some "news per page cannot be less than 1"
  else none

/-! ## Pagination theorems -/

/-- Helper: `calculateTotalPages` never returns a negative value. -/
theorem calculateTotalPages_nonneg (t : Int) : 0 ≤ calculateTotalPages t := by
  rcases le_or_lt t 0 with h | h
  · unfold calculateTotalPages
    rw [if_pos h]
  · have hq : t.tdiv 20 = t / 20 := Int.tdiv_eq_ediv h.le (by norm_num)
    unfold calculateTotalPages
    rw [if_neg (not_le.mpr h)]
    simp only [NEWS_PER_PAGE, hq]
    split_ifs <;> omega

/-- Helper: characterisation of the rational ceiling of `t / 20` by integer
inequalities. -/
theorem ceil_div_twenty_eq (t z : Int) (hlo : 20 * z - 20 < t) (hhi : t ≤ 20 * z) :
    ⌈(t : ℚ) / 20⌉ = z := by
  rw [Int.ceil_eq_iff]
  constructor
  · rw [lt_div_iff₀ (by norm_num : (0:ℚ) < 20)]
    have h : ((z - 1) * 20 : ℤ) < t := by omega
    calc ((z : ℚ) - 1) * 20 = (((z - 1) * 20 : ℤ) : ℚ) := by push_cast; ring
      _ < (t : ℚ) := by exact_mod_cast h
  · rw [div_le_iff₀ (by norm_num : (0:ℚ) < 20)]
    have h : t ≤ (z * 20 : ℤ) := by omega
    calc (t : ℚ) ≤ ((z * 20 : ℤ) : ℚ) := by exact_mod_cast h
      _ = (z : ℚ) * 20 := by push_cast; ring

/-- C2: for every integer `totalResults`, `calculateTotalPages` returns
`ceil(totalResults / 20)` when `totalResults > 0` and `0` when
`totalResults = 0`, with negative inputs clamped to `0` first (expressed
as the ceiling of `max totalResults 0 / 20` over the rationals). -/
theorem calculateTotalPages_eq_ceil (t : Int) :
    calculateTotalPages t = ⌈(↑(max t 0) : ℚ) / 20⌉ := by
  rcases le_or_lt t 0 with h | h
  · rw [max_eq_right h]
    unfold calculateTotalPages
    rw [if_pos h]
    norm_num
  · rw [max_eq_left h.le]
    have hq : t.tdiv 20 = t / 20 := Int.tdiv_eq_ediv h.le (by norm_num)
    have hr : t.tmod 20 = t % 20 := Int.tmod_eq_emod h.le (by norm_num)
    have hz : calculateTotalPages t =
        if t % 20 ≠ 0 then t / 20 + 1 else t / 20 := by
      unfold calculateTotalPages
      rw [if_neg (not_le.mpr h)]
      simp only [NEWS_PER_PAGE, hq, hr]
    rw [hz]
    split_ifs with hrem
    · exact (ceil_div_twenty_eq t _ (by omega) (by omega)).symm
    · exact (ceil_div_twenty_eq t _ (by omega) (by omega)).symm

/-- C10: `New` always produces a paginator that passes `Validate` — its
current page is at least 1, its total-results is non-negative, and its
per-page size is the constant 20. -/
theorem New_passes_Validate (t c : Int) :
    (Pagination.New t c).Validate = none ∧
    (Pagination.New t c).NewsPerPage = 20 ∧
    1 ≤ (Pagination.New t c).CurrentPage ∧
    0 ≤ (Pagination.New t c).TotalResults := by
  have hTP : 0 ≤ calculateTotalPages (if t < 0 then 0 else t) :=
    calculateTotalPages_nonneg _
  simp only [Pagination.New, Pagination.Validate, NEWS_PER_PAGE]
  refine ⟨?_, trivial, ?_, ?_⟩
  · split_ifs <;> first | rfl | (exfalso; omega)
  · split_ifs <;> omega
  · split_ifs <;> omega

/-- C3 counterexample: the claim fails after `SetResults`.  Starting from
`New 45 3` (so `TotalPages = 3`, `CurrentPage = 3`) and attaching an empty
result page triggers the short-page correction, which recomputes
`TotalPages = 2` while leaving `CurrentPage = 3`: the clamp invariant
`CurrentPage ∈ [1, TotalPages]` is violated although `TotalPages > 0`. -/
theorem setResults_can_exceed_totalPages :
    ((Pagination.New 45 3).SetResults []).TotalPages = 2 ∧
    ((Pagination.New 45 3).SetResults []).CurrentPage = 3 ∧
    0 < ((Pagination.New 45 3).SetResults []).TotalPages ∧
    ¬ ((Pagination.New 45 3).SetResults []).CurrentPage ≤
        ((Pagination.New 45 3).SetResults []).TotalPages := by
  decide

/-- C3 (amended): immediately after construction by `New`, whenever
`TotalPages > 0` the current page is clamped into `[1, TotalPages]`, and
`HasNext`/`HasPrev` equal the comparisons `CurrentPage < TotalPages` /
`CurrentPage > 1`; `SetResults` preserves the two navigation equations
(but not the clamp — the short-page correction can recompute `TotalPages`
below `CurrentPage`, see the counterexample).  With `totalResults = 45`
and a requested page 5, construction yields `CurrentPage = 3`,
`HasNext = false`, `HasPrev = true`, `PrevPage = 2`. -/
theorem pagination_navigation_invariants :
    (∀ t c : Int, 0 < (Pagination.New t c).TotalPages →
        1 ≤ (Pagination.New t c).CurrentPage ∧
        (Pagination.New t c).CurrentPage ≤ (Pagination.New t c).TotalPages) ∧
    (∀ t c : Int,
        ((Pagination.New t c).HasNext = true ↔
          (Pagination.New t c).CurrentPage < (Pagination.New t c).TotalPages) ∧
        ((Pagination.New t c).HasPrev = true ↔
          1 < (Pagination.New t c).CurrentPage)) ∧
    (∀ (p : Pagination) (rs : List NewsFullDetailed),
        (p.HasNext = true ↔ p.CurrentPage < p.TotalPages) →
        (p.HasPrev = true ↔ 1 < p.CurrentPage) →
        ((p.SetResults rs).HasNext = true ↔
          (p.SetResults rs).CurrentPage < (p.SetResults rs).TotalPages) ∧
        ((p.SetResults rs).HasPrev = true ↔
          1 < (p.SetResults rs).CurrentPage)) ∧
    ((Pagination.New 45 5).CurrentPage = 3 ∧
     (Pagination.New 45 5).HasNext = false ∧
     (Pagination.New 45 5).HasPrev = true ∧
     (Pagination.New 45 5).PrevPage = 2) := by
  refine ⟨?_, ?_, ?_, by decide⟩
  · intro t c
    have hTP : 0 ≤ calculateTotalPages (if t < 0 then 0 else t) :=
      calculateTotalPages_nonneg _
    simp only [Pagination.New]
    split_ifs <;> omega
  · intro t c
    simp [Pagination.New]
  · intro p rs h1 h2
    simp only [Pagination.SetResults]
    split_ifs with hcond
    · simp [Pagination.updateNavigation]
    · exact ⟨h1, h2⟩

/-- Witness for C3 (amended): the clamp holds concretely for `New 45 5`, and
the navigation equations survive a concrete `SetResults` call. -/
theorem pagination_navigation_invariants_witness :
    (1 ≤ (Pagination.New 45 5).CurrentPage ∧
     (Pagination.New 45 5).CurrentPage ≤ (Pagination.New 45 5).TotalPages) ∧
    (((Pagination.New 45 3).SetResults []).HasNext = true ↔
      ((Pagination.New 45 3).SetResults []).CurrentPage <
        ((Pagination.New 45 3).SetResults []).TotalPages) :=
  ⟨pagination_navigation_invariants.1 45 5 (by decide),
   (pagination_navigation_invariants.2.2.1 (Pagination.New 45 3) []
      (by decide) (by decide)).1⟩

/-- Concrete three-element result page used in the C4 example. -/
def threeResults : List NewsFullDetailed := List.replicate 3 {}

/-- C4: `SetResults` applies the short-page correction exactly when the page
came back shorter than `NewsPerPage` while the current page equals the
previously computed `TotalPages`; it then sets
`TotalResults = (TotalPages - 1) * NewsPerPage + len(results)`, recomputes
`TotalPages` from that corrected total and re-derives the navigation fields;
otherwise only `Results` changes.  Concretely, from `New 45 3` and an actual
page of 3 results the corrected `TotalResults` is 43, `TotalPages` stays 3,
and `HasNext` is false. -/
theorem SetResults_short_page_correction :
    (∀ (p : Pagination) (rs : List NewsFullDetailed),
        (rs.length : Int) < p.NewsPerPage → p.CurrentPage = p.TotalPages →
        (p.SetResults rs).TotalResults
            = (p.TotalPages - 1) * p.NewsPerPage + rs.length ∧
        (p.SetResults rs).TotalPages
            = calculateTotalPages ((p.TotalPages - 1) * p.NewsPerPage + rs.length) ∧
        (p.SetResults rs).CurrentPage = p.CurrentPage ∧
        ((p.SetResults rs).HasNext = true ↔
          p.CurrentPage < (p.SetResults rs).TotalPages) ∧
        ((p.SetResults rs).HasPrev = true ↔ 1 < p.CurrentPage) ∧
        (p.SetResults rs).NextPage
            = (if p.CurrentPage < (p.SetResults rs).TotalPages
               then p.CurrentPage + 1 else 0) ∧
        (p.SetResults rs).PrevPage
            = (if 1 < p.CurrentPage then p.CurrentPage - 1 else 0) ∧
        (p.SetResults rs).Results = rs) ∧
    (∀ (p : Pagination) (rs : List NewsFullDetailed),
        ¬ ((rs.length : Int) < p.NewsPerPage ∧ p.CurrentPage = p.TotalPages) →
        p.SetResults rs = { p with Results := rs }) ∧
    (((Pagination.New 45 3).SetResults threeResults).TotalResults = 43 ∧
     ((Pagination.New 45 3).SetResults threeResults).TotalPages = 3 ∧
     ((Pagination.New 45 3).SetResults threeResults).HasNext = false) := by
  refine ⟨?_, ?_, by decide⟩
  · intro p rs hshort heq
    have hc : (rs.length : Int) < p.NewsPerPage ∧ p.CurrentPage = p.TotalPages :=
      ⟨hshort, heq⟩
    simp only [Pagination.SetResults]
    rw [if_pos hc]
    simp [Pagination.updateNavigation]
  · intro p rs hneg
    simp only [Pagination.SetResults]
    rw [if_neg hneg]

/-- Witness for C4: the correction formula evaluated at `New 45 3` with a
three-element page. -/
theorem SetResults_short_page_correction_witness :
    ((Pagination.New 45 3).SetResults threeResults).TotalResults
        = ((Pagination.New 45 3).TotalPages - 1) * (Pagination.New 45 3).NewsPerPage
            + threeResults.length ∧
    ((Pagination.New 45 3).SetResults threeResults).CurrentPage
        = (Pagination.New 45 3).CurrentPage :=
  ⟨(SetResults_short_page_correction.1 (Pagination.New 45 3) threeResults
      (by decide) (by decide)).1,
   (SetResults_short_page_correction.1 (Pagination.New 45 3) threeResults
      (by decide) (by decide)).2.2.1⟩

/-! ## Storage (`storage/postgres.go`) -/

/-- Modelled from the spec: the `models.NewsFilter` struct itself is not in
the provided source tree (only its uses in `postgres.go` and `handlers.go`
are).  Per §3 of the spec it has optional category, author, day-granularity
date, limit, offset and ordering fields; field names and types follow the
uses. -/
structure NewsFilter where
  Category : String := ""
  Author : String := ""
  Date : GoTime := {}
  OrderBy : String := ""
  Limit : Int := 0
  Offset : Int := 0
deriving DecidableEq, Repr

/-- A SQL parameter value as passed to pgx (`args` / `batch.Queue`). -/
inductive SqlVal where
  | str (s : String)
  | int (i : Int)
  | time (t : GoTime)
  | null
deriving DecidableEq, Repr

/-- `GetNewsCount`'s dynamically assembled query, from postgres.go: the base
`SELECT COUNT(*)` with one condition appended per non-empty filter field,
numbering the placeholders with `argPos`.  Returns the query text and the
argument list. -/
def getNewsCountQuery (filter : NewsFilter) : String × List SqlVal :=
  let query := "SELECT COUNT(*) FROM news WHERE 1=1"
  let args : List SqlVal := []
  let argPos : Nat := 1
  let (query, args, argPos) :=
    if filter.Category ≠ "" then
      (query ++ " AND category = $" ++ toString argPos,
       args ++ [SqlVal.str filter.Category], argPos + 1)
    else (query, args, argPos)
  let (query, args, argPos) :=
    if filter.Author ≠ "" then
      (query ++ " AND author = $" ++ toString argPos,
       args ++ [SqlVal.str filter.Author], argPos + 1)
    else (query, args, argPos)
  let (query, args, _) :=
    if ¬ filter.Date.IsZero then
      (query ++ " AND DATE(publisher_at) = $" ++ toString argPos,
       args ++ [SqlVal.str filter.Date.formatDateOnly], argPos + 1)
    else (query, args, argPos)
  (query, args)

/-- `GetNewsByFilter`'s dynamically assembled query, from postgres.go: the
projected columns, the same three optional conditions, a default ordering,
and optional `LIMIT`/`OFFSET`. -/
def getNewsByFilterQuery (filter : NewsFilter) : String × List SqlVal :=
  let query := "\n\tSELECT\n\tnews_id,\n\ttitle,\n\tdescription,\n\tcontent,\n\tauthor,\n\tpublished_at,\n\tsource,\n\tlink,\n\tcategory\n\tFROM news\n\tWHERE 1=1\n\t"
  let args : List SqlVal := []
  let argPos : Nat := 1
  let (query, args, argPos) :=
    if filter.Category ≠ "" then
      (query ++ " AND category = $" ++ toString argPos,
       args ++ [SqlVal.str filter.Category], argPos + 1)
    else (query, args, argPos)
  let (query, args, argPos) :=
    if filter.Author ≠ "" then
      (query ++ " AND author = $" ++ toString argPos,
       args ++ [SqlVal.str filter.Author], argPos + 1)
    else (query, args, argPos)
  let (query, args, argPos) :=
    if ¬ filter.Date.IsZero then
      (query ++ " AND DATE(published_at) = $" ++ toString argPos,
       args ++ [SqlVal.str filter.Date.formatDateOnly], argPos + 1)
    else (query, args, argPos)
  let query :=
    if filter.OrderBy ≠ "" then query ++ " ORDER BY " ++ filter.OrderBy
    else query ++ " ORDER BY published_at DESC"
  let (query, args, argPos) :=
    if filter.Limit > 0 then
      (query ++ " LIMIT $" ++ toString argPos,
       args ++ [SqlVal.int filter.Limit], argPos + 1)
    else (query, args, argPos)
  let (query, args, _) :=
    if filter.Offset > 0 then
      (query ++ " OFFSET $" ++ toString argPos,
       args ++ [SqlVal.int filter.Offset], argPos)
    else (query, args, argPos)
  (query, args)

/-- A date-only filter, the input on which the two query builders diverge. -/
def dateOnlyFilter : NewsFilter :=
  { Date := { year := 2024, month := 1, day := 1 } }

/-- Whether `needle` occurs as a contiguous run inside `hay`. -/
def containsChars (hay needle : List Char) : Bool :=
  (List.range (hay.length + 1)).any fun i => needle.isPrefixOf (hay.drop i)

set_option maxRecDepth 8192 in
/-- C1 counter-evidence: on a date-only filter, `GetNewsCount`'s assembled
condition references the column `publisher_at` while `GetNewsByFilter`'s
references `published_at` — the two predicates are not identical (and
`publisher_at` exists nowhere else in the code or schema, so the count
query cannot even run).  The first two conjuncts pin the exact query texts;
the last three locate the column-name divergence. -/
theorem newsCount_date_condition_mismatch :
    (getNewsCountQuery dateOnlyFilter).1
        = "SELECT COUNT(*) FROM news WHERE 1=1 AND DATE(publisher_at) = $1" ∧
    (getNewsByFilterQuery dateOnlyFilter).1
        = "\n\tSELECT\n\tnews_id,\n\ttitle,\n\tdescription,\n\tcontent,\n\tauthor,\n\tpublished_at,\n\tsource,\n\tlink,\n\tcategory\n\tFROM news\n\tWHERE 1=1\n\t AND DATE(published_at) = $1 ORDER BY published_at DESC" ∧
    containsChars (getNewsCountQuery dateOnlyFilter).1.toList "publisher_at".toList = true ∧
    containsChars (getNewsCountQuery dateOnlyFilter).1.toList "published_at".toList = false ∧
    containsChars (getNewsByFilterQuery dateOnlyFilter).1.toList "publisher_at".toList = false := by
  refine ⟨rfl, rfl, ?_, ?_, ?_⟩ <;> decide

/-- A row of the persisted `news` table, with the eight columns the
`GetDetailedNews` query projects. -/
structure DbNewsRow where
  id : Int := 0
  title : String := ""
  description : String := ""
  content : String := ""
  author : String := ""
  published_at : GoTime := {}
  source : String := ""
  link : String := ""
deriving DecidableEq, Repr

/-- The columns selected by `GetDetailedNews`'s query in postgres.go:
`SELECT id, title, description, content, author, published_at, source, link`. -/
def getDetailedNewsColumns : List String :=
  ["id", "title", "description", "content", "author", "published_at", "source", "link"]

/-- The scan destinations passed to `rows.Scan` in `GetDetailedNews`
(postgres.go lines 83–91): seven fields — `Content` is missing. -/
def getDetailedNewsScanDests : List String :=
  ["NewsID", "Title", "Description", "Author", "PublishedAt", "Source", "Link"]

/-- `GetDetailedNews` from postgres.go over a modelled table.  A missing row
surfaces as pgx's `ErrNoRows` and is mapped to the "not found" error; on a
present row, pgx's `Row.Scan` contract fails whenever the number of selected
columns differs from the number of destinations, which the code then wraps
as "unable scan row". -/
def GetDetailedNews (table : List DbNewsRow) (newsID : Int) : Except String NewsFullDetailed :=
  match table.find? (fun r => r.id == newsID) with
  | none => .error ("news with ID " ++ toString newsID ++ " not found")
  | some r =>
      if getDetailedNewsColumns.length = getDetailedNewsScanDests.length then
        .ok { NewsID := r.id, Title := r.title, Description := r.description,
              Content := r.content, Author := r.author, PublishedAt := r.published_at,
              Source := r.source, Link := r.link, Tag := [] }
      else .error "unable scan row: number of field descriptions must equal number of destinations"

/-- A concrete stored row with id 1. -/
def sampleRow : DbNewsRow :=
  { id := 1, title := "t", description := "d", content := "c", author := "a",
    published_at := { year := 2024, month := 2, day := 3 }, source := "s", link := "l" }

/-- C9 counter-evidence: the query selects eight columns but `Scan` is given
only seven destinations (`Content` is omitted), so even when the row with
the requested id exists, `GetDetailedNews` returns the generic scan error
instead of the stored record; only the absent-row path produces the distinct
"not found" error. -/
theorem getDetailedNews_scan_arity_mismatch :
    getDetailedNewsColumns.length = 8 ∧
    getDetailedNewsScanDests.length = 7 ∧
    ([sampleRow].find? (fun r => r.id == 1)) = some sampleRow ∧
    GetDetailedNews [sampleRow] 1
        = .error "unable scan row: number of field descriptions must equal number of destinations" ∧
    GetDetailedNews [sampleRow] 2 = .error "news with ID 2 not found" := by
  exact ⟨rfl, rfl, rfl, rfl, rfl⟩

/-! ## Domain model (`internal/domain/feed.go`) and `SaveNews` -/

/-- `domain.Item` from feed.go. -/
structure Item where
  Title : String := ""
  Link : String := ""
  Description : String := ""
  PubDate : GoTime := {}
deriving DecidableEq, Repr

/-- `domain.Feed` from feed.go. -/
structure Feed where
  Title : String := ""
  Link : String := ""
  Description : String := ""
  Items : List Item := []
deriving DecidableEq, Repr

/-- The exact INSERT statement string built in `SaveNews` (postgres.go lines
236–240), reproduced character for character — including the stray closing
parenthesis after `DO NOTHING`. -/
def saveNewsQuery : String :=
  "\n\tINSERT INTO news(\n\ttitle, description, content, author, published_at, source, link)\n\tVALUES($1, $2, $3, $4, $5, $6, $7) ON CONFLICT (link) DO NOTHING);\n\t"

/-- The argument list `batch.Queue` receives for one item in `SaveNews`
(postgres.go lines 247–257): title, description, content (a copy of the
description), a nil author, the publication date, the feed title as source,
the link — and one extra trailing nil. -/
def saveNewsQueuedArgs (feed : Feed) (item : Item) : List SqlVal :=
  let content := item.Description
  [ SqlVal.str item.Title, SqlVal.str item.Description, SqlVal.str content,
    SqlVal.null, SqlVal.time item.PubDate, SqlVal.str feed.Title,
    SqlVal.str item.Link, SqlVal.null ]

/-- C7 counter-evidence: the batch insert in `SaveNews` cannot succeed.  The
statement has 7 placeholders but every `batch.Queue` call passes 8
arguments, and the SQL text itself is syntactically invalid (one more `)`
than `(`), so the batch fails on every non-empty feed and `SaveNews`
returns an error instead of idempotently succeeding. -/
theorem saveNews_batch_malformed (feed : Feed) (item : Item) :
    (saveNewsQueuedArgs feed item).length = 8 ∧
    saveNewsQuery.toList.count '$' = 7 ∧
    saveNewsQuery.toList.count '(' = 3 ∧
    saveNewsQuery.toList.count ')' = 4 := by
  refine ⟨rfl, ?_, ?_, ?_⟩ <;> decide

/-- The row shape inserted by `SaveNews`'s statement: the seven named
columns, with `author` nullable since the code queues nil for it. -/
structure InsertedNews where
  title : String := ""
  description : String := ""
  content : String := ""
  author : Option String := none
  published_at : GoTime := {}
  source : String := ""
  link : String := ""
deriving DecidableEq, Repr

/-- The row `SaveNews` queues for one item: content duplicates the
description, author is nil, and the feed title is recorded as source
(postgres.go lines 244–259). -/
def rowOfItem (feed : Feed) (item : Item) : InsertedNews :=
  { title := item.Title, description := item.Description,
    content := item.Description, author := none,
    published_at := item.PubDate, source := feed.Title, link := item.Link }

/-- The `ON CONFLICT (link) DO NOTHING` insert semantics: a row whose link
is already present is silently skipped. -/
def insertOnConflict (store : List InsertedNews) (r : InsertedNews) : List InsertedNews :=
  if store.any (fun x => x.link == r.link) then store else store ++ [r]

/-- Which of `SaveNews`'s three fallible database steps (begin, batch
execution, commit) fails, if any. -/
inductive DbOutcome where
  | ok
  | beginFail
  | batchFail
  | commitFail
deriving DecidableEq, Repr

/-- `SaveNews` from postgres.go over a modelled store.  The control flow is
the source's: an empty feed short-circuits to `(0, nil)` before any
transaction is opened; otherwise each failure injection point returns the
corresponding wrapped error, and since all queued inserts take effect only
at the single commit, the store is unchanged on every failure path.  On
success the returned count is `savedCount`, incremented once per queued
item regardless of conflicts. -/
def SaveNews (outcome : DbOutcome) (store : List InsertedNews) (feed : Feed) :
    List InsertedNews × Except String Int :=
  if feed.Items.length = 0 then (store, .ok 0)
  else
    match outcome with
    | .beginFail => (store, .error "failed to start transaction")
    | .batchFail => (store, .error "failed to execute batch")
    | .commitFail => (store, .error "failed to commit transaction")
    | .ok =>
        let savedCount : Int := feed.Items.length
        (feed.Items.foldl (fun st item => insertOnConflict st (rowOfItem feed item)) store,
         .ok savedCount)

/-- C6: for every non-empty feed, a failure at any stage — opening the
transaction, executing the batch, or committing — makes `SaveNews` return
an error and leaves the store exactly as it was: none of the feed's items
are persisted. -/
theorem saveNews_atomic_on_failure (o : DbOutcome) (store : List InsertedNews)
    (feed : Feed) (hne : feed.Items ≠ []) (hfail : o ≠ DbOutcome.ok) :
    (SaveNews o store feed).1 = store ∧
    ∃ e, (SaveNews o store feed).2 = Except.error e := by
  have hlen : feed.Items.length ≠ 0 := by
    simpa [List.length_eq_zero] using hne
  cases o with
  | ok => exact absurd rfl hfail
  | beginFail =>
      exact ⟨by simp [SaveNews, hlen],
        ⟨"failed to start transaction", by simp [SaveNews, hlen]⟩⟩
  | batchFail =>
      exact ⟨by simp [SaveNews, hlen],
        ⟨"failed to execute batch", by simp [SaveNews, hlen]⟩⟩
  | commitFail =>
      exact ⟨by simp [SaveNews, hlen],
        ⟨"failed to commit transaction", by simp [SaveNews, hlen]⟩⟩

/-- A ten-item feed, matching the spec's "batch for item 7 of 10 fails"
scenario. -/
def tenItemFeed : Feed :=
  { Title := "source-a",
    Items := (List.range 10).map fun i =>
      { Title := "t" ++ toString i, Link := "l" ++ toString i } }

/-- Witness for C6: the batch of a ten-item feed fails and zero of the ten
items are visible in the store afterwards. -/
theorem saveNews_atomic_on_failure_witness :
    (SaveNews DbOutcome.batchFail [] tenItemFeed).1 = [] ∧
    ∃ e, (SaveNews DbOutcome.batchFail [] tenItemFeed).2 = Except.error e :=
  saveNews_atomic_on_failure DbOutcome.batchFail [] tenItemFeed
    (by decide) (by decide)

/-- The duplicate-ingestion scenario: one item whose link is already in the
store. -/
def dupItem : Item := { Title := "t", Link := "l", Description := "d" }

/-- A one-item feed containing `dupItem`. -/
def dupFeed : Feed := { Title := "src", Items := [dupItem] }

/-- A store that already holds exactly the row `dupFeed` would insert. -/
def dupStore : List InsertedNews := [rowOfItem dupFeed dupItem]

/-- C8: `SaveNews` returns count 0 and no error on a feed with no items for
every outcome (no transaction is opened, so even a failing database is not
touched); on every successful call it returns exactly the number of items
in the feed; and concretely, re-saving an already-present link returns
count 1 while inserting nothing. -/
theorem saveNews_count_semantics :
    (∀ (o : DbOutcome) (store : List InsertedNews) (T L D : String),
        SaveNews o store { Title := T, Link := L, Description := D, Items := [] }
          = (store, Except.ok 0)) ∧
    (∀ (store : List InsertedNews) (feed : Feed),
        (SaveNews DbOutcome.ok store feed).2 = Except.ok (feed.Items.length : Int)) ∧
    SaveNews DbOutcome.ok dupStore dupFeed = (dupStore, Except.ok 1) := by
  refine ⟨?_, ?_, ?_⟩
  · intro o store T L D
    simp [SaveNews]
  · intro store feed
    by_cases h : feed.Items.length = 0
    · simp [SaveNews, h]
    · simp [SaveNews, h]
  · exact Prod.ext rfl rfl

/-! ## Parser (`internal/parser/xmlparser.go`)

The XML decoding step (`encoding/xml`) is external; the embedding starts
from the decoded document (`rssXML`), which is the scope of the claim
("every input document whose root structure decodes").  Likewise
`time.Parse` is a standard-library function, so `parsePubDate` is
parametrised by an oracle `timeParse : layout → value → Option GoTime`;
everything proved below holds for every such oracle. -/

/-- `itemXML` from xmlparser.go: the decoded form of one `<item>`. -/
structure ItemXML where
  Title : String := ""
  Link : String := ""
  Description : String := ""
  PubDate : String := ""
deriving DecidableEq, Repr

/-- `channelXML` from xmlparser.go. -/
structure ChannelXML where
  Title : String := ""
  Link : String := ""
  Description : String := ""
  Items : List ItemXML := []
deriving DecidableEq, Repr

/-- `rssXML` from xmlparser.go. -/
structure RssXML where
  Channel : ChannelXML := {}
deriving DecidableEq, Repr

/-- The fixed ordered format list in `parsePubDate` (xmlparser.go lines
85–91): RFC1123Z, RFC1123, RFC822Z, RFC822, then the single-digit-day
variant, with the Go layout constants spelled out. -/
def pubDateFormats : List String :=
  [ "Mon, 02 Jan 2006 15:04:05 -0700",
    "Mon, 02 Jan 2006 15:04:05 MST",
    "02 Jan 06 15:04 -0700",
    "02 Jan 06 15:04 MST",
    "Mon, 2 Jan 2006 15:04:05 -0700" ]

/-- Go `strings.TrimSpace`, modelled over the character list: drop leading
and trailing whitespace. -/
def trimSpace (s : String) : String :=
  String.mk (((s.toList.dropWhile Char.isWhitespace).reverse.dropWhile
    Char.isWhitespace).reverse)

/-- `parsePubDate` from xmlparser.go: try each format in order on the
trimmed date string; the first that parses wins, and if none do, fail. -/
def parsePubDate (timeParse : String → String → Option GoTime)
    (dateStr : String) : Except String GoTime :=
  match pubDateFormats.findSome? (fun format => timeParse format (trimSpace dateStr)) with
  | some t => .ok t
  | none => .error ("fail to parse date in any known format: " ++ dateStr)

/-- The `domain.Item` built from a decoded item DTO and its parsed date
(xmlparser.go lines 72–77). -/
def itemOfDTO (d : ItemXML) (t : GoTime) : Item :=
  { Title := d.Title, Link := d.Link, Description := d.Description, PubDate := t }

/-- `Parse` from xmlparser.go, after the XML decode: a cancelled context is
an error; otherwise walk the decoded items in order, skip any whose
publication date fails to parse, and keep the rest. -/
def Parse (timeParse : String → String → Option GoTime)
    (ctxErr : Option String) (rss : RssXML) : Except String Feed :=
  match ctxErr with
  | some e => .error e
  | none =>
      let items := rss.Channel.Items.foldl
        (fun acc itemDTO =>
          match parsePubDate timeParse itemDTO.PubDate with
          | .error _ => acc
          | .ok pubDate => acc ++ [itemOfDTO itemDTO pubDate])
        []
      .ok { Title := rss.Channel.Title, Link := rss.Channel.Link,
            Description := rss.Channel.Description, Items := items }

/-- The per-item selection `Parse` performs, as an `Option`. -/
def parsedItem (timeParse : String → String → Option GoTime)
    (d : ItemXML) : Option Item :=
  match parsePubDate timeParse d.PubDate with
  | .ok t => some (itemOfDTO d t)
  | .error _ => none

/-- Helper: one step of a skip-or-append fold. -/
def skipAppend {α β : Type} (f : α → Option β) (acc : List β) (a : α) : List β :=
  match f a with
  | some b => acc ++ [b]
  | none => acc

/-- Helper: the skip-and-append fold equals `filterMap`. -/
theorem foldl_skip_append_eq_filterMap {α β : Type} (f : α → Option β)
    (l : List α) (acc : List β) :
    l.foldl (skipAppend f) acc = acc ++ l.filterMap f := by
  induction l generalizing acc with
  | nil => simp
  | cons x xs ih =>
      cases hx : f x <;> simp [List.foldl_cons, skipAppend, hx, ih]

/-- A concrete date-parse oracle for the example: only the two strings
`"good1"` and `"good2"` parse (under the first format tried). -/
def exampleTimeParse : String → String → Option GoTime := fun _ value =>
  if value = "good1" then some { year := 2024, month := 3, day := 1 }
  else if value = "good2" then some { year := 2024, month := 3, day := 2 }
  else none

/-- The spec's example document: one item with an unparseable date between
two items with valid dates. -/
def exampleDoc : RssXML :=
  { Channel :=
    { Title := "ch", Link := "cl", Description := "cd",
      Items :=
        [ { Title := "a", Link := "la", PubDate := "good1" },
          { Title := "b", Link := "lb", PubDate := "bad" },
          { Title := "c", Link := "lc", PubDate := "good2" } ] } }

/-- C5: for every date-parse oracle and every decoded document, `Parse`
succeeds (never errors on item-level failures) and returns exactly the
items whose publication date parses under some format of the fixed list,
in input order and each carrying its parsed timestamp — unparseable items
are absent, and a document with zero parseable items yields a valid empty
feed.  Concretely, the spec's three-item example keeps exactly the two
well-dated items. -/
theorem Parse_keeps_exactly_parseable_items :
    (∀ (timeParse : String → String → Option GoTime) (rss : RssXML),
        Parse timeParse none rss
          = Except.ok
              { Title := rss.Channel.Title, Link := rss.Channel.Link,
                Description := rss.Channel.Description,
                Items := rss.Channel.Items.filterMap (parsedItem timeParse) }) ∧
    (Parse exampleTimeParse none exampleDoc
        = Except.ok
            { Title := "ch", Link := "cl", Description := "cd",
              Items :=
                [ { Title := "a", Link := "la", Description := "",
                    PubDate := { year := 2024, month := 3, day := 1 } },
                  { Title := "c", Link := "lc", Description := "",
                    PubDate := { year := 2024, month := 3, day := 2 } } ] }) := by
  constructor
  · intro timeParse rss
    have hbody :
        (fun (acc : List Item) (itemDTO : ItemXML) =>
            match parsePubDate timeParse itemDTO.PubDate with
            | .error _ => acc
            | .ok pubDate => acc ++ [itemOfDTO itemDTO pubDate])
          = skipAppend (parsedItem timeParse) := by
      funext acc d
      unfold skipAppend parsedItem
      cases parsePubDate timeParse d.PubDate <;> rfl
    simp only [Parse, hbody]
    rw [foldl_skip_append_eq_filterMap (parsedItem timeParse) rss.Channel.Items []]
    rw [List.nil_append]
  · rfl

end NewsService
